import Mathlib

/-!
Verification of the bitcoin-aml-graph-monitoring core: graph feature
engineering (`src/features/transaction_features.py`) and the
percentile-calibrated explainable risk scorer (`src/risk/risk_scoring.py`).

Modelling conventions:
* A pandas DataFrame is a `List Row`; a column that may be absent from a
  given frame is an `Option`-valued field (`none` = column absent).
* A float column that may hold NaN is modelled as `Option ℚ`
  (`none` = NaN); a NaN-able column that may also be absent is
  `Option (Option ℚ)`.
* Python `set` is `Finset ℤ`; a `dict[int, set[int]]` with `defaultdict`
  semantics is a total function `ℤ → Finset ℤ`.
* `pandas.sort_values(..., ascending=False)` computes an ascending argsort
  of the key column and reverses it; it is modelled as the reverse of an
  ascending `List.insertionSort`.  This matches the program's behaviour on
  small arrays (where numpy's default kind falls back to a stable insertion
  sort) and, like the program, it does not preserve the input order of
  tied rows — the reversal flips tie groups.
* Reason strings are abstracted as tagged constructors carrying the numeric
  payload the source interpolates into the string.
-/

namespace AML

abbrev Edge := ℤ × ℤ

/-- Human-readable reason messages of `score_transaction`, one constructor per
distinct message template in the source. -/
inductive Reason where
  | exp1_not_computable
  | exp2_not_computable
  | exp1_extreme (ratio : ℚ)
  | exp1_elevated (ratio : ℚ)
  | exp2_extreme (ratio : ℚ)
  | exp2_elevated (ratio : ℚ)
  | fan_out_extreme (deg : ℤ)
  | fan_out_high (deg : ℤ)
  | fan_in_extreme (deg : ℤ)
  | fan_in_high (deg : ℤ)
deriving DecidableEq, Repr

/-- One row of the transaction table.  Base columns `txId`, `time_step`,
`class_name` are always present; derived feature/score columns are `Option`
(`none` = the column has not been added to this frame). -/
structure Row where
  txId : ℤ
  time_step : ℤ
  class_name : String
  fan_out_1hop : Option ℤ := none
  fan_in_1hop : Option ℤ := none
  nbr_count_1hop : Option ℕ := none
  illicit_nbr_count_1hop : Option ℕ := none
  illicit_nbr_ratio_1hop : Option (Option ℚ) := none
  nbr_count_2hop_strict : Option ℕ := none
  illicit_nbr_count_2hop_strict : Option ℕ := none
  illicit_nbr_ratio_2hop_strict : Option (Option ℚ) := none
  risk_score : Option ℤ := none
  alert_reasons : Option (List Reason) := none
  severity : Option String := none
deriving DecidableEq, Repr

/-- `RiskConfig` of `risk_scoring.py`: eight percentile thresholds. -/
structure RiskConfig where
  fan_out_p99 : ℚ
  fan_out_p95 : ℚ
  fan_in_p99 : ℚ
  fan_in_p95 : ℚ
  exp1_p99 : ℚ
  exp1_p95 : ℚ
  exp2_p99 : ℚ
  exp2_p95 : ℚ
deriving DecidableEq, Repr

/-! ### Degree features (`add_fan_in_out`) -/

/-- Result of merging a `value_counts` table back onto a frame on key `v`:
`none` (pandas NaN) when `v` never occurs in the counted column, otherwise
the occurrence count.  Models `merge(..., how="left")` of the source. -/
def merge_count (xs : List ℤ) (v : ℤ) : Option ℕ :=
  if v ∈ xs then some (xs.count v) else none

/-- `add_fan_in_out(df, edges)`: per row, the count of edge occurrences with
the row's `txId` as `txId1` (fan-out) resp. `txId2` (fan-in), via
`value_counts` + left merge + `fillna(0).astype(int)`. -/
def add_fan_in_out (df : List Row) (edges : List Edge) : List Row :=
  df.map fun r =>
    { r with
      fan_out_1hop := some (((merge_count (edges.map Prod.fst) r.txId).getD 0 : ℕ) : ℤ)
      fan_in_1hop := some (((merge_count (edges.map Prod.snd) r.txId).getD 0 : ℕ) : ℤ) }

/-! ### Adjacency builder (`_build_undirected_adj`) -/

/-- One `adj[a].add(b)` step on the defaultdict-of-sets. -/
def adj_insert (m : ℤ → Finset ℤ) (a b : ℤ) : ℤ → Finset ℤ :=
  fun v => if v = a then insert b (m v) else m v

/-- `_build_undirected_adj(edges)`: fold over the edge list, inserting each
edge into both endpoints' neighbor sets.  Lookups of untouched keys give `∅`
(the `defaultdict`/`adj.get(t, set())` behaviour). -/
def _build_undirected_adj (edges : List Edge) : ℤ → Finset ℤ :=
  edges.foldl (fun m e => adj_insert (adj_insert m e.1 e.2) e.2 e.1) (fun _ => ∅)

/-! ### Illicit exposure (`add_illicit_exposure`, `build_illicit_set`,
`get_top_illicit_neighbors_for_tx`) -/

/-- `build_illicit_set(df)`: txIds whose `class_name` is exactly "illicit". -/
def build_illicit_set (df : List Row) : Finset ℤ :=
  ((df.filter (fun r => r.class_name == "illicit")).map (fun r => r.txId)).toFinset

/-- The strict 2-hop computation shared by `add_illicit_exposure` and
`get_top_illicit_neighbors_for_tx`: union of neighbors of the 1-hop
neighbors, then `discard(t)` and `difference_update(nbrs1)`. -/
def strict_2hop (adj : ℤ → Finset ℤ) (t : ℤ) : Finset ℤ :=
  (((adj t).biUnion adj) \ {t}) \ adj t

/-- `add_illicit_exposure(df, edges, compute_2hop)`: adds 1-hop (and, when
`compute_2hop`, strict 2-hop) neighbor counts, illicit-neighbor counts and
illicit ratios.  A ratio is `none` (NaN) exactly when its denominator is 0,
mirroring `count / nbr_count.replace(0, pd.NA)`. -/
def add_illicit_exposure (df : List Row) (edges : List Edge) (compute_2hop : Bool) :
    List Row :=
  let illicit_set := build_illicit_set df
  let adj := _build_undirected_adj edges
  let out1 := df.map fun r =>
    let nbrs := adj r.txId
    let c1 := nbrs.card
    let i1 := (nbrs.filter (fun n => n ∈ illicit_set)).card
    { r with
      nbr_count_1hop := some c1
      illicit_nbr_count_1hop := some i1
      illicit_nbr_ratio_1hop :=
        some (if c1 = 0 then none else some ((i1 : ℚ) / (c1 : ℚ))) }
  if compute_2hop = false then out1 else
  out1.map fun r =>
    let nbrs2 := strict_2hop adj r.txId
    let c2 := nbrs2.card
    let i2 := (nbrs2.filter (fun n => n ∈ illicit_set)).card
    { r with
      nbr_count_2hop_strict := some c2
      illicit_nbr_count_2hop_strict := some i2
      illicit_nbr_ratio_2hop_strict :=
        some (if c2 = 0 then none else some ((i2 : ℚ) / (c2 : ℚ))) }

/-- `get_top_illicit_neighbors_for_tx(txid, edges, illicit_set, k)`: sorted
(ascending txId) illicit 1-hop and strict-2-hop neighbor lists, truncated to
`k`.  Returned dict modelled as a pair (1-hop list, 2-hop list). -/
def get_top_illicit_neighbors_for_tx (txid : ℤ) (edges : List Edge)
    (illicit_set : Finset ℤ) (k : ℕ) : List ℤ × List ℤ :=
  let adj := _build_undirected_adj edges
  let nbrs1 := adj txid
  let illicit_1hop := ((nbrs1.filter (fun n => n ∈ illicit_set)).sort (· ≤ ·)).take k
  let nbrs2 := strict_2hop adj txid
  let illicit_2hop := ((nbrs2.filter (fun n => n ∈ illicit_set)).sort (· ≤ ·)).take k
  (illicit_1hop, illicit_2hop)

/-! ### Quantiles and `fit_risk_config` -/

/-- `pandas.Series.quantile(p)` with linear interpolation: NaN entries are
dropped before the call (modelled by the caller passing only the non-NaN
values), the remaining values are sorted ascending, and the result is the
linear interpolation at fractional index `p * (n - 1)`.  `none` on an empty
series (pandas NaN). -/
def quantile (xs : List ℚ) (p : ℚ) : Option ℚ :=
  match List.insertionSort (· ≤ ·) xs with
  | [] => none
  | v :: vs =>
    let sorted := v :: vs
    let n := sorted.length
    let h := p * ((n : ℚ) - 1)
    let lo := (Int.floor h).toNat
    let hi := min (lo + 1) (n - 1)
    let vlo := sorted.getD lo 0
    let vhi := sorted.getD hi 0
    some (vlo + (h - (lo : ℚ)) * (vhi - vlo))

/-- Column `fan_out_1hop` as a float series with NaN (absent values) dropped. -/
def fan_out_col (df : List Row) : List ℚ :=
  df.filterMap (fun r => r.fan_out_1hop.map (fun z => (z : ℚ)))

/-- Column `fan_in_1hop` as a float series with NaN (absent values) dropped. -/
def fan_in_col (df : List Row) : List ℚ :=
  df.filterMap (fun r => r.fan_in_1hop.map (fun z => (z : ℚ)))

/-- Column `illicit_nbr_ratio_1hop` with NaN values dropped. -/
def exp1_col (df : List Row) : List ℚ :=
  df.filterMap (fun r => r.illicit_nbr_ratio_1hop.getD none)

/-- Column `illicit_nbr_ratio_2hop_strict` with NaN values dropped. -/
def exp2_col (df : List Row) : List ℚ :=
  df.filterMap (fun r => r.illicit_nbr_ratio_2hop_strict.getD none)

/-- The eight quantile reads of `fit_risk_config` over the chosen calibration
population `base`.  `none` when some column is empty after dropping NaN (in
pandas the corresponding threshold would be NaN, which ℚ cannot carry). -/
def fit_from_base (base : List Row) : Option RiskConfig :=
  match quantile (fan_out_col base) 0.99, quantile (fan_out_col base) 0.95,
        quantile (fan_in_col base) 0.99, quantile (fan_in_col base) 0.95,
        quantile (exp1_col base) 0.99, quantile (exp1_col base) 0.95,
        quantile (exp2_col base) 0.99, quantile (exp2_col base) 0.95 with
  | some a, some b, some c, some d, some e, some f, some g, some h =>
    some ⟨a, b, c, d, e, f, g, h⟩
  | _, _, _, _, _, _, _, _ => none

/-- `fit_risk_config(df_feat, use_known_only)`: restrict to rows whose label
is "illicit" or "licit" when `use_known_only`, then take the eight
percentile thresholds. -/
def fit_risk_config (df_feat : List Row) (use_known_only : Bool) : Option RiskConfig :=
  let base :=
    if use_known_only then
      df_feat.filter (fun r => r.class_name == "illicit" || r.class_name == "licit")
    else df_feat
  fit_from_base base

/-! ### `score_transaction`, `severity`, `add_risk_scores` -/

/-- Python float comparison `x >= y` where `x` may be NaN (`none`): false on
NaN. -/
def nan_ge (x : Option ℚ) (y : ℚ) : Bool :=
  match x with
  | none => false
  | some q => decide (y ≤ q)

/-- Python float comparison `x > 0` where `x` may be NaN (`none`): false on
NaN. -/
def nan_pos (x : Option ℚ) : Bool :=
  match x with
  | none => false
  | some q => decide (0 < q)

/-- `score_transaction(row, cfg)`: accumulator-style translation of the rule
cascade.  `row.get(col, None)` on a NaN-able column is `Option.getD … none`
(absent column and NaN both behave as NaN downstream); `int(row.get(col, 0))`
is `Option.getD … 0`. -/
def score_transaction (row : Row) (cfg : RiskConfig) : ℤ × List Reason :=
  let exp1 : Option ℚ := row.illicit_nbr_ratio_1hop.getD none
  let exp2 : Option ℚ := row.illicit_nbr_ratio_2hop_strict.getD none
  let score : ℤ := 0
  let reasons : List Reason := []
  let reasons := if exp1 = none then reasons ++ [Reason.exp1_not_computable] else reasons
  let reasons := if exp2 = none then reasons ++ [Reason.exp2_not_computable] else reasons
  let (score, reasons) :=
    if nan_ge exp1 cfg.exp1_p99 && nan_pos exp1 then
      (score + 5, reasons ++ [Reason.exp1_extreme (exp1.getD 0)])
    else if nan_ge exp1 cfg.exp1_p95 && nan_pos exp1 then
      (score + 3, reasons ++ [Reason.exp1_elevated (exp1.getD 0)])
    else (score, reasons)
  let (score, reasons) :=
    if nan_ge exp2 cfg.exp2_p99 && nan_pos exp2 then
      (score + 3, reasons ++ [Reason.exp2_extreme (exp2.getD 0)])
    else if nan_ge exp2 cfg.exp2_p95 && nan_pos exp2 then
      (score + 2, reasons ++ [Reason.exp2_elevated (exp2.getD 0)])
    else (score, reasons)
  let fan_out : ℤ := row.fan_out_1hop.getD 0
  let fan_in : ℤ := row.fan_in_1hop.getD 0
  let (score, reasons) :=
    if cfg.fan_out_p99 ≤ (fan_out : ℚ) then
      (score + 2, reasons ++ [Reason.fan_out_extreme fan_out])
    else if cfg.fan_out_p95 ≤ (fan_out : ℚ) then
      (score + 1, reasons ++ [Reason.fan_out_high fan_out])
    else (score, reasons)
  let (score, reasons) :=
    if cfg.fan_in_p99 ≤ (fan_in : ℚ) then
      (score + 2, reasons ++ [Reason.fan_in_extreme fan_in])
    else if cfg.fan_in_p95 ≤ (fan_in : ℚ) then
      (score + 1, reasons ++ [Reason.fan_in_high fan_in])
    else (score, reasons)
  (score, reasons)

/-- Severity bands of `add_risk_scores`. -/
def severity (score : ℤ) : String :=
  if 8 ≤ score then "critical"
  else if 5 ≤ score then "high"
  else if 3 ≤ score then "medium"
  else "low"

/-- `add_risk_scores(df_feat, cfg)`: per row, attach `risk_score`,
`alert_reasons` and `severity`. -/
def add_risk_scores (df_feat : List Row) (cfg : RiskConfig) : List Row :=
  df_feat.map fun r =>
    let sr := score_transaction r cfg
    { r with
      risk_score := some sr.1
      alert_reasons := some sr.2
      severity := some (severity sr.1) }

/-! ### `get_alerts` -/

/-- The `order` dict of `get_alerts`; `none` models a `KeyError` lookup. -/
def severity_order (s : String) : Option ℕ :=
  if s = "low" then some 0
  else if s = "medium" then some 1
  else if s = "high" then some 2
  else if s = "critical" then some 3
  else none

/-- The boolean mask `df_scored["severity"].map(order) >= cutoff`: a row with
an unmapped severity gets NaN, and NaN ≥ cutoff is false. -/
def sev_passes (cutoff : ℕ) (r : Row) : Bool :=
  match severity_order (r.severity.getD "") with
  | some k => decide (cutoff ≤ k)
  | none => false

/-- Sort key of `sort_values(["risk_score"], ascending=False)`. -/
def risk_key (r : Row) : ℤ := r.risk_score.getD 0

/-- Descending-score order, used to state sortedness of the alert output. -/
def score_desc (a b : Row) : Prop := risk_key b ≤ risk_key a

/-- Ascending-score order: the comparison of the ascending argsort that
pandas computes before reversing for `ascending=False`. -/
def score_asc (a b : Row) : Prop := risk_key a ≤ risk_key b

instance : DecidableRel score_asc := fun a b => by
  unfold score_asc; infer_instance

instance : IsTotal Row score_asc :=
  ⟨fun a b => le_total (risk_key a) (risk_key b)⟩

instance : IsTrans Row score_asc :=
  ⟨fun _ _ _ hab hbc => le_trans hab hbc⟩

/-- `get_alerts(df_scored, min_severity)`: look the cutoff up in `order`
(`none` = `KeyError` on an unknown severity name), keep rows at or above the
cutoff, sort by `risk_score` descending.  The source's `sort_values` passes
no `kind=`, and pandas realizes a descending single-column sort as the
reversal of an ascending argsort; this is modelled as the reverse of an
ascending insertion sort, which reverses — not preserves — the input order
within tie groups.  The optional output-column projection of the source only
selects columns and is omitted. -/
def get_alerts (df_scored : List Row) (min_severity : String) : Option (List Row) :=
  match severity_order min_severity with
  | none => none
  | some cutoff =>
    some ((List.insertionSort score_asc (df_scored.filter (sev_passes cutoff))).reverse)

/-! ### Reference rule list from the specification -/

/-- Modelled from the spec: section 4.5's ordered rule list for the
percentile-calibrated scorer, written rule by rule — rule 1 appends
not-computable reasons with no score change; rules 2 and 3 are the mutually
exclusive two-tier ratio rules (+5/+3 and +3/+2) with a `> 0` guard; rules 4
and 5 are the fan-out/fan-in tiers (+2/+1) without a positivity guard. -/
def spec_score_transaction (row : Row) (cfg : RiskConfig) : ℤ × List Reason :=
  let exp1 : Option ℚ := row.illicit_nbr_ratio_1hop.getD none
  let exp2 : Option ℚ := row.illicit_nbr_ratio_2hop_strict.getD none
  let rule1 : List Reason :=
    (if exp1 = none then [Reason.exp1_not_computable] else []) ++
    (if exp2 = none then [Reason.exp2_not_computable] else [])
  let rule2 : ℤ × List Reason :=
    match exp1 with
    | none => (0, [])
    | some q =>
      if cfg.exp1_p99 ≤ q ∧ 0 < q then (5, [Reason.exp1_extreme q])
      else if cfg.exp1_p95 ≤ q ∧ 0 < q then (3, [Reason.exp1_elevated q])
      else (0, [])
  let rule3 : ℤ × List Reason :=
    match exp2 with
    | none => (0, [])
    | some q =>
      if cfg.exp2_p99 ≤ q ∧ 0 < q then (3, [Reason.exp2_extreme q])
      else if cfg.exp2_p95 ≤ q ∧ 0 < q then (2, [Reason.exp2_elevated q])
      else (0, [])
  let fan_out : ℤ := row.fan_out_1hop.getD 0
  let fan_in : ℤ := row.fan_in_1hop.getD 0
  let rule4 : ℤ × List Reason :=
    if cfg.fan_out_p99 ≤ (fan_out : ℚ) then (2, [Reason.fan_out_extreme fan_out])
    else if cfg.fan_out_p95 ≤ (fan_out : ℚ) then (1, [Reason.fan_out_high fan_out])
    else (0, [])
  let rule5 : ℤ × List Reason :=
    if cfg.fan_in_p99 ≤ (fan_in : ℚ) then (2, [Reason.fan_in_extreme fan_in])
    else if cfg.fan_in_p95 ≤ (fan_in : ℚ) then (1, [Reason.fan_in_high fan_in])
    else (0, [])
  (rule2.1 + rule3.1 + rule4.1 + rule5.1,
   rule1 ++ rule2.2 ++ rule3.2 ++ rule4.2 ++ rule5.2)

/-! ### Heap model for the frame-effect claims

Python dataframes are heap objects; each table-level operation receives a
reference to its input frame, copies it (`df.copy()` or mask-`.copy()`), and
assigns columns only on the copy.  `Heap` is the object store, a reference is
an index, `df_alloc` models `copy()` (a fresh object), `df_setcols` models
in-place column assignment on an existing object. -/

abbrev Heap := List (List Row)

/-- Dereference a frame. -/
def df_read (h : Heap) (r : ℕ) : List Row := h.getD r []

/-- Allocate a fresh frame (`copy()` / a newly built frame). -/
def df_alloc (h : Heap) (d : List Row) : Heap × ℕ := (h ++ [d], h.length)

/-- In-place column assignment on the frame at reference `r`. -/
def df_setcols (h : Heap) (r : ℕ) (d : List Row) : Heap := h.set r d

/-- Heap-level `add_fan_in_out`: copy the input, then assign the two degree
columns on the copy. -/
def add_fan_in_out_heap (h : Heap) (dfRef : ℕ) (edges : List Edge) : Heap × ℕ :=
  let a := df_alloc h (df_read h dfRef)
  let h2 := df_setcols a.1 a.2 (add_fan_in_out (df_read a.1 a.2) edges)
  (h2, a.2)

/-- Heap-level `add_illicit_exposure`: copy the input, then assign the
exposure columns on the copy. -/
def add_illicit_exposure_heap (h : Heap) (dfRef : ℕ) (edges : List Edge)
    (compute_2hop : Bool) : Heap × ℕ :=
  let a := df_alloc h (df_read h dfRef)
  let h2 := df_setcols a.1 a.2 (add_illicit_exposure (df_read a.1 a.2) edges compute_2hop)
  (h2, a.2)

/-- Heap-level `add_risk_scores`: copy the input, then assign the score
columns on the copy. -/
def add_risk_scores_heap (h : Heap) (dfRef : ℕ) (cfg : RiskConfig) : Heap × ℕ :=
  let a := df_alloc h (df_read h dfRef)
  let h2 := df_setcols a.1 a.2 (add_risk_scores (df_read a.1 a.2) cfg)
  (h2, a.2)

/-- Heap-level `get_alerts`: the mask-selection `.copy()` and the
`sort_values` result are fresh frames; the input is only read. -/
def get_alerts_heap (h : Heap) (dfRef : ℕ) (min_severity : String) :
    Option (Heap × ℕ) :=
  match get_alerts (df_read h dfRef) min_severity with
  | none => none
  | some l => some (df_alloc h l)

/-! ### Concrete sample data used by witnesses -/

/-- A bare input row (no derived columns yet). -/
def row0 : Row := { txId := 0, time_step := 0, class_name := "unknown" }

/-- The triangle edge list of the spec's worked example. -/
def tri_edges : List Edge := [(1, 2), (2, 3), (3, 1)]

/-! ### Helper lemmas -/

/-- Membership after a single `adj[x].add(y)` step. -/
theorem mem_adj_insert (m : ℤ → Finset ℤ) (x y v b : ℤ) :
    b ∈ adj_insert m x y v ↔ (v = x ∧ b = y) ∨ b ∈ m v := by
  unfold adj_insert
  split_ifs with h <;> simp [h]

/-- Membership characterization of the adjacency fold: `b` is a neighbor of
`a` after folding `edges` over `m` iff some edge joins `a` and `b` (in either
direction) or `b` was already a neighbor in `m`. -/
theorem mem_adj_foldl (edges : List Edge) :
    ∀ (m : ℤ → Finset ℤ) (a b : ℤ),
      b ∈ (edges.foldl
            (fun m e => adj_insert (adj_insert m e.1 e.2) e.2 e.1) m) a ↔
        (a, b) ∈ edges ∨ (b, a) ∈ edges ∨ b ∈ m a := by
  induction edges with
  | nil => simp
  | cons e es ih =>
    intro m a b
    rw [List.foldl_cons, ih, mem_adj_insert, mem_adj_insert]
    simp only [List.mem_cons, Prod.ext_iff]
    tauto

/-- Membership in the built adjacency map. -/
theorem mem_build_adj (edges : List Edge) (a b : ℤ) :
    b ∈ _build_undirected_adj edges a ↔ (a, b) ∈ edges ∨ (b, a) ∈ edges := by
  unfold _build_undirected_adj
  rw [mem_adj_foldl]
  simp

/-- Left-merged `value_counts` with `fillna(0)` is the plain occurrence
count. -/
theorem merge_count_getD (xs : List ℤ) (v : ℤ) :
    (merge_count xs v).getD 0 = xs.count v := by
  unfold merge_count
  split
  · rfl
  · rename_i h
    simp [List.count_eq_zero.mpr h]

/-- Occurrence count in a projected column as a filter over the edge list. -/
theorem count_map_fst (edges : List Edge) (t : ℤ) :
    (edges.map Prod.fst).count t = (edges.filter (fun e => e.1 == t)).length := by
  rw [List.count_eq_countP, List.countP_eq_length_filter, List.filter_map]
  simp [Function.comp_def]

/-- Occurrence count in the second projected column. -/
theorem count_map_snd (edges : List Edge) (t : ℤ) :
    (edges.map Prod.snd).count t = (edges.filter (fun e => e.2 == t)).length := by
  rw [List.count_eq_countP, List.countP_eq_length_filter, List.filter_map]
  simp [Function.comp_def]

/-! ### Claims C6, C5, C8, C2 -/

/-- C6: for every edge list the adjacency map of `_build_undirected_adj` is
symmetric — `b ∈ adjacency(a)` iff `a ∈ adjacency(b)` — and the empty edge
list yields the empty mapping, so every lookup returns the empty set. -/
theorem adjacency_symmetric_and_empty :
    (∀ (edges : List Edge) (a b : ℤ),
      b ∈ _build_undirected_adj edges a ↔ a ∈ _build_undirected_adj edges b) ∧
    (∀ v : ℤ, _build_undirected_adj [] v = ∅) := by
  refine ⟨fun edges a b => ?_, fun v => rfl⟩
  rw [mem_build_adj, mem_build_adj]
  tauto

/-- C5: for every edge list and transaction `t`, the strict 2-hop set (the
computation shared by the exposure computer and the top-illicit-neighbors
operation) is the union of the neighbors of `t`'s 1-hop neighbors with `t`
and every 1-hop neighbor removed; consequently it never contains the origin
nor any direct neighbor. -/
theorem strict_2hop_spec (edges : List Edge) (t : ℤ) :
    strict_2hop (_build_undirected_adj edges) t =
      ((_build_undirected_adj edges t).biUnion (_build_undirected_adj edges)) \
        (insert t (_build_undirected_adj edges t)) ∧
    t ∉ strict_2hop (_build_undirected_adj edges) t ∧
    ∀ n, n ∈ _build_undirected_adj edges t →
      n ∉ strict_2hop (_build_undirected_adj edges) t := by
  refine ⟨?_, ?_, ?_⟩
  · ext x
    simp only [strict_2hop, Finset.mem_sdiff, Finset.mem_insert,
      Finset.mem_singleton]
    tauto
  · simp [strict_2hop]
  · intro n hn
    simp [strict_2hop, hn]

/-- C5 witness: in the triangle `[(1,2),(2,3),(3,1)]`, transaction 3 has
direct neighbor 2, and the strict 2-hop set of 3 contains neither 3 nor 2. -/
theorem strict_2hop_spec_witness :
    (3 : ℤ) ∉ strict_2hop (_build_undirected_adj tri_edges) 3 ∧
    (2 : ℤ) ∈ _build_undirected_adj tri_edges 3 ∧
    (2 : ℤ) ∉ strict_2hop (_build_undirected_adj tri_edges) 3 :=
  ⟨(strict_2hop_spec tri_edges 3).2.1, by decide,
    (strict_2hop_spec tri_edges 3).2.2 2 (by decide)⟩

/-- C8: `add_fan_in_out` gives every row the number of edge occurrences with
its `txId` as `txId1` (fan-out) resp. as `txId2` (fan-in) — duplicates
counted, absent transactions getting 0 — and on edges `[(1,2),(2,1)]` both
transactions get fan-out 1 and fan-in 1. -/
theorem add_fan_in_out_counts :
    (∀ (df : List Row) (edges : List Edge),
      add_fan_in_out df edges = df.map fun r =>
        { r with
          fan_out_1hop := some ((edges.filter (fun e => e.1 == r.txId)).length : ℤ)
          fan_in_1hop := some ((edges.filter (fun e => e.2 == r.txId)).length : ℤ) }) ∧
    (add_fan_in_out [{ row0 with txId := 1 }, { row0 with txId := 2 }]
        [(1, 2), (2, 1)]).map (fun r => (r.fan_out_1hop, r.fan_in_1hop)) =
      [(some 1, some 1), (some 1, some 1)] := by
  constructor
  · intro df edges
    unfold add_fan_in_out
    refine List.map_congr_left fun r _ => ?_
    rw [merge_count_getD, merge_count_getD, count_map_fst, count_map_snd]
  · decide

/-- C2: the severity band of an integer risk score is exactly "critical" for
scores ≥ 8, "high" for 5 ≤ score < 8, "medium" for 3 ≤ score < 5 and "low"
below 3; the boundary values 7, 8, 4, 2 map to high, critical, medium, low;
and the mapping is monotone non-decreasing in the score with respect to the
severity ranks of the alert filter. -/
theorem severity_bands :
    (∀ s : ℤ,
      (severity s = "critical" ↔ 8 ≤ s) ∧
      (severity s = "high" ↔ 5 ≤ s ∧ s < 8) ∧
      (severity s = "medium" ↔ 3 ≤ s ∧ s < 5) ∧
      (severity s = "low" ↔ s < 3)) ∧
    severity 7 = "high" ∧ severity 8 = "critical" ∧
    severity 4 = "medium" ∧ severity 2 = "low" ∧
    (∀ s t : ℤ, s ≤ t → ∃ ks kt,
      severity_order (severity s) = some ks ∧
      severity_order (severity t) = some kt ∧ ks ≤ kt) := by
  have hb : ∀ s : ℤ,
      (severity s = "critical" ↔ 8 ≤ s) ∧
      (severity s = "high" ↔ 5 ≤ s ∧ s < 8) ∧
      (severity s = "medium" ↔ 3 ≤ s ∧ s < 5) ∧
      (severity s = "low" ↔ s < 3) := by
    intro s
    unfold severity
    split_ifs with h1 h2 h3 <;>
      refine ⟨?_, ?_, ?_, ?_⟩ <;> simp <;> omega
  refine ⟨hb, by decide, by decide, by decide, by decide, ?_⟩
  intro s t hst
  have rank : ∀ u : ℤ, ∃ k, severity_order (severity u) = some k ∧
      ((k = 0 ∧ u < 3) ∨ (k = 1 ∧ 3 ≤ u ∧ u < 5) ∨
       (k = 2 ∧ 5 ≤ u ∧ u < 8) ∨ (k = 3 ∧ 8 ≤ u)) := by
    intro u
    unfold severity severity_order
    split_ifs <;> simp_all <;> try omega
  obtain ⟨ks, hks, hs⟩ := rank s
  obtain ⟨kt, hkt, ht⟩ := rank t
  exact ⟨ks, kt, hks, hkt, by omega⟩

/-- C2 witness: applying the monotonicity clause at scores 2 ≤ 8 produces
ranks 0 ≤ 3. -/
theorem severity_bands_witness :
    ∃ ks kt, severity_order (severity 2) = some ks ∧
      severity_order (severity 8) = some kt ∧ ks ≤ kt :=
  severity_bands.2.2.2.2.2 2 8 (by decide)

/-- Ratio built from `count / denom.replace(0, NA)`: NaN exactly on zero
denominator, the plain quotient otherwise, and never `0.0` on a zero
denominator. -/
theorem ratio_ite_spec (c i : ℕ) :
    ((if c = 0 then none else some ((i : ℚ) / (c : ℚ))) = none ↔ c = 0) ∧
    (c ≠ 0 → (if c = 0 then none else some ((i : ℚ) / (c : ℚ))) =
      some ((i : ℚ) / (c : ℚ))) ∧
    (c = 0 → (if c = 0 then none else some ((i : ℚ) / (c : ℚ))) ≠ some 0) := by
  by_cases h : c = 0 <;> simp [h]

/-- C1: every row of the exposure computer's output carries the 1-hop (and,
when computed, strict-2-hop) neighbor count, illicit count and ratio; the
ratio is missing (`none`, pandas NaN) exactly when the corresponding neighbor
count is 0, equals illicit count / neighbor count otherwise, and is never
`0.0` on a zero denominator. -/
theorem exposure_ratio_fields (df : List Row) (edges : List Edge) (c2 : Bool)
    (r : Row) (hr : r ∈ add_illicit_exposure df edges c2) :
    (∃ n1 i1 rat1,
      r.nbr_count_1hop = some n1 ∧
      r.illicit_nbr_count_1hop = some i1 ∧
      r.illicit_nbr_ratio_1hop = some rat1 ∧
      (rat1 = none ↔ n1 = 0) ∧
      (n1 ≠ 0 → rat1 = some ((i1 : ℚ) / (n1 : ℚ))) ∧
      (n1 = 0 → rat1 ≠ some 0)) ∧
    (c2 = true →
      ∃ n2 i2 rat2,
        r.nbr_count_2hop_strict = some n2 ∧
        r.illicit_nbr_count_2hop_strict = some i2 ∧
        r.illicit_nbr_ratio_2hop_strict = some rat2 ∧
        (rat2 = none ↔ n2 = 0) ∧
        (n2 ≠ 0 → rat2 = some ((i2 : ℚ) / (n2 : ℚ))) ∧
        (n2 = 0 → rat2 ≠ some 0)) := by
  unfold add_illicit_exposure at hr
  cases c2 with
  | false =>
    obtain ⟨r0, _, rfl⟩ := List.mem_map.mp hr
    refine ⟨⟨_, _, _, rfl, rfl, rfl, ?_, ?_, ?_⟩, fun hf => by cases hf⟩
    · exact (ratio_ite_spec _ _).1
    · exact (ratio_ite_spec _ _).2.1
    · exact (ratio_ite_spec _ _).2.2
  | true =>
    obtain ⟨r1, hr1, rfl⟩ := List.mem_map.mp hr
    obtain ⟨r0, _, rfl⟩ := List.mem_map.mp hr1
    constructor
    · refine ⟨_, _, _, rfl, rfl, rfl, ?_, ?_, ?_⟩
      · exact (ratio_ite_spec _ _).1
      · exact (ratio_ite_spec _ _).2.1
      · exact (ratio_ite_spec _ _).2.2
    · intro _
      refine ⟨_, _, _, rfl, rfl, rfl, ?_, ?_, ?_⟩
      · exact (ratio_ite_spec _ _).1
      · exact (ratio_ite_spec _ _).2.1
      · exact (ratio_ite_spec _ _).2.2

/-- Sample input rows for the exposure witness. -/
def tx_illicit1 : Row := { row0 with txId := 1, class_name := "illicit" }

/-- Sample unlabeled transaction 3. -/
def tx_plain3 : Row := { row0 with txId := 3 }

/-- The exposure-computer output row for transaction 3 on an empty edge
list: all counts 0 and both ratios NaN. -/
def exposure_out3 : Row :=
  { row0 with
    txId := 3
    nbr_count_1hop := some 0
    illicit_nbr_count_1hop := some 0
    illicit_nbr_ratio_1hop := some none
    nbr_count_2hop_strict := some 0
    illicit_nbr_count_2hop_strict := some 0
    illicit_nbr_ratio_2hop_strict := some none }

/-- C1 witness: on the empty edge list, transaction 3's output row has
zero neighbor counts and both ratios are `none`, not `0.0`. -/
theorem exposure_ratio_fields_witness :
    exposure_out3 ∈ add_illicit_exposure [tx_illicit1, tx_plain3] [] true ∧
    ((∃ n1 i1 rat1,
      exposure_out3.nbr_count_1hop = some n1 ∧
      exposure_out3.illicit_nbr_count_1hop = some i1 ∧
      exposure_out3.illicit_nbr_ratio_1hop = some rat1 ∧
      (rat1 = none ↔ n1 = 0) ∧
      (n1 ≠ 0 → rat1 = some ((i1 : ℚ) / (n1 : ℚ))) ∧
      (n1 = 0 → rat1 ≠ some 0)) ∧
    (true = true →
      ∃ n2 i2 rat2,
        exposure_out3.nbr_count_2hop_strict = some n2 ∧
        exposure_out3.illicit_nbr_count_2hop_strict = some i2 ∧
        exposure_out3.illicit_nbr_ratio_2hop_strict = some rat2 ∧
        (rat2 = none ↔ n2 = 0) ∧
        (n2 ≠ 0 → rat2 = some ((i2 : ℚ) / (n2 : ℚ))) ∧
        (n2 = 0 → rat2 ≠ some 0))) :=
  ⟨by decide,
    exposure_ratio_fields [tx_illicit1, tx_plain3] [] true exposure_out3 (by decide)⟩

/-! ### Claims C3 and C4: the explainable scorer -/

set_option maxHeartbeats 4000000 in
/-- The accumulator-style scorer of the source equals the spec's rule list
evaluated rule by rule. -/
theorem score_eq_spec_rules (row : Row) (cfg : RiskConfig) :
    score_transaction row cfg = spec_score_transaction row cfg := by
  unfold score_transaction spec_score_transaction
  generalize row.illicit_nbr_ratio_1hop.getD none = e1
  generalize row.illicit_nbr_ratio_2hop_strict.getD none = e2
  generalize row.fan_out_1hop.getD 0 = fo
  generalize row.fan_in_1hop.getD 0 = fi
  cases e1 <;> cases e2 <;>
    simp only [nan_ge, nan_pos, Bool.and_eq_true, decide_eq_true_eq,
      Bool.false_eq_true, false_and, and_false, Option.some_ne_none,
      Option.getD_some, Option.getD_none, if_true, if_false,
      eq_self_iff_true, List.nil_append] <;>
    split_ifs <;> simp_all

/-- C3: the scorer implements exactly the spec's ordered rule list — rule 1
(not-computable reasons, no score change), the mutually exclusive +5/+3 and
+3/+2 exposure tiers with their `> 0` guards, and the +2/+1 fan-out/fan-in
tiers with no positivity guard. -/
theorem scorer_matches_spec_rules (row : Row) (cfg : RiskConfig) :
    score_transaction row cfg = spec_score_transaction row cfg :=
  score_eq_spec_rules row cfg

set_option maxHeartbeats 4000000 in
/-- Per-rule score deltas of the scorer: the total decomposes as four deltas
drawn from \{0,3,5}, \{0,2,3}, \{0,1,2}, \{0,1,2}. -/
theorem score_delta_menu (row : Row) (cfg : RiskConfig) :
    ∃ d1 d2 d3 d4 : ℤ,
      (score_transaction row cfg).1 = d1 + d2 + d3 + d4 ∧
      (d1 = 0 ∨ d1 = 3 ∨ d1 = 5) ∧ (d2 = 0 ∨ d2 = 2 ∨ d2 = 3) ∧
      (d3 = 0 ∨ d3 = 1 ∨ d3 = 2) ∧ (d4 = 0 ∨ d4 = 1 ∨ d4 = 2) := by
  rw [score_eq_spec_rules]
  unfold spec_score_transaction
  generalize row.illicit_nbr_ratio_1hop.getD none = e1
  generalize row.illicit_nbr_ratio_2hop_strict.getD none = e2
  generalize row.fan_out_1hop.getD 0 = fo
  generalize row.fan_in_1hop.getD 0 = fi
  cases e1 <;> cases e2 <;> dsimp only [] <;> split_ifs <;>
    exact ⟨_, _, _, _, rfl, by norm_num, by norm_num, by norm_num, by norm_num⟩

/-- The scorer's total is between 0 and 12. -/
theorem score_bounds (row : Row) (cfg : RiskConfig) :
    0 ≤ (score_transaction row cfg).1 ∧ (score_transaction row cfg).1 ≤ 12 := by
  obtain ⟨d1, d2, d3, d4, he, h1, h2, h3, h4⟩ := score_delta_menu row cfg
  omega

/-- C4 counterexample: a total of 17 is not attainable — the two tiers of
each rule are mutually exclusive (`elif`), so the maximum is 5+3+2+2 = 12,
and no feature record and configuration reach 17. -/
theorem score17_unattainable :
    ¬ ∃ (row : Row) (cfg : RiskConfig), (score_transaction row cfg).1 = 17 := by
  rintro ⟨row, cfg, h⟩
  have := score_bounds row cfg
  omega

/-- Sample configuration with every threshold 1. -/
def cfg_ones : RiskConfig := ⟨1, 1, 1, 1, 1, 1, 1, 1⟩

/-- Feature record reaching the maximal score 12. -/
def row_max : Row :=
  { row0 with
    fan_out_1hop := some 5
    fan_in_1hop := some 5
    illicit_nbr_ratio_1hop := some (some 1)
    illicit_nbr_ratio_2hop_strict := some (some 1) }

/-- C4 (amended): the risk score is a non-negative integer equal to the sum
of the triggered rule deltas (one delta per rule, from the menus {0,3,5},
{0,2,3}, {0,1,2}, {0,1,2}); its maximum is 12 = 5+3+2+2, which is
attainable. -/
theorem score_sum_of_deltas_max12 :
    (∀ (row : Row) (cfg : RiskConfig),
      0 ≤ (score_transaction row cfg).1 ∧ (score_transaction row cfg).1 ≤ 12 ∧
      ∃ d1 d2 d3 d4 : ℤ,
        (score_transaction row cfg).1 = d1 + d2 + d3 + d4 ∧
        (d1 = 0 ∨ d1 = 3 ∨ d1 = 5) ∧ (d2 = 0 ∨ d2 = 2 ∨ d2 = 3) ∧
        (d3 = 0 ∨ d3 = 1 ∨ d3 = 2) ∧ (d4 = 0 ∨ d4 = 1 ∨ d4 = 2)) ∧
    (score_transaction row_max cfg_ones).1 = 12 :=
  ⟨fun row cfg =>
    ⟨(score_bounds row cfg).1, (score_bounds row cfg).2, score_delta_menu row cfg⟩,
   by decide⟩

/-! ### Claim C9: permutation invariance of calibration -/

/-- Sorting ascending is invariant under permutation of the input. -/
theorem sort_eq_of_perm (xs ys : List ℚ) (h : List.Perm xs ys) :
    List.insertionSort (· ≤ ·) xs = List.insertionSort (· ≤ ·) ys :=
  List.eq_of_perm_of_sorted
    (((List.perm_insertionSort _ xs).trans h).trans
      (List.perm_insertionSort _ ys).symm)
    (List.sorted_insertionSort _ xs) (List.sorted_insertionSort _ ys)

/-- Quantiles are invariant under permutation of the series. -/
theorem quantile_perm (xs ys : List ℚ) (p : ℚ) (h : List.Perm xs ys) :
    quantile xs p = quantile ys p := by
  unfold quantile
  rw [sort_eq_of_perm xs ys h]

/-- The eight quantile reads are invariant under permutation of the
calibration population. -/
theorem fit_from_base_perm (b1 b2 : List Row) (h : List.Perm b1 b2) :
    fit_from_base b1 = fit_from_base b2 := by
  have h1 : List.Perm (fan_out_col b1) (fan_out_col b2) := h.filterMap _
  have h2 : List.Perm (fan_in_col b1) (fan_in_col b2) := h.filterMap _
  have h3 : List.Perm (exp1_col b1) (exp1_col b2) := h.filterMap _
  have h4 : List.Perm (exp2_col b1) (exp2_col b2) := h.filterMap _
  unfold fit_from_base
  rw [quantile_perm _ _ 0.99 h1, quantile_perm _ _ 0.95 h1,
    quantile_perm _ _ 0.99 h2, quantile_perm _ _ 0.95 h2,
    quantile_perm _ _ 0.99 h3, quantile_perm _ _ 0.95 h3,
    quantile_perm _ _ 0.99 h4, quantile_perm _ _ 0.95 h4]

/-- C9: the threshold calibrator is a function of the multiset of
calibration rows — permuting the row order yields an identical RiskConfig. -/
theorem fit_risk_config_perm_invariant (df1 df2 : List Row)
    (use_known_only : Bool) (h : List.Perm df1 df2) :
    fit_risk_config df1 use_known_only = fit_risk_config df2 use_known_only := by
  unfold fit_risk_config
  cases use_known_only with
  | false => exact fit_from_base_perm _ _ h
  | true => exact fit_from_base_perm _ _ (h.filter _)

/-- Calibration row with known label "licit". -/
def cal_rowA : Row :=
  { row0 with
    class_name := "licit"
    fan_out_1hop := some 2
    fan_in_1hop := some 1
    illicit_nbr_ratio_1hop := some (some 1)
    illicit_nbr_ratio_2hop_strict := some (some 0) }

/-- Calibration row with known label "illicit". -/
def cal_rowB : Row :=
  { row0 with
    class_name := "illicit"
    fan_out_1hop := some 4
    fan_in_1hop := some 0
    illicit_nbr_ratio_1hop := some (some 0)
    illicit_nbr_ratio_2hop_strict := some none }

/-- C9 witness: swapping two concrete calibration rows yields the same
fitted configuration. -/
theorem fit_risk_config_perm_invariant_witness :
    List.Perm [cal_rowA, cal_rowB] [cal_rowB, cal_rowA] ∧
    fit_risk_config [cal_rowA, cal_rowB] true =
      fit_risk_config [cal_rowB, cal_rowA] true :=
  ⟨List.Perm.swap _ _ _,
    fit_risk_config_perm_invariant _ _ _ (List.Perm.swap _ _ _)⟩

/-! ### Claim C7: the alert filter -/

/-- The reverse of an ascending-sorted list is descending-sorted. -/
theorem sorted_desc_reverse_asc (l : List Row) :
    List.Sorted score_desc (List.insertionSort score_asc l).reverse := by
  have hs := List.sorted_insertionSort score_asc l
  exact List.pairwise_reverse.mpr hs

/-- C7 (amended): for a valid minimum severity with rank `c`, the alert
filter returns exactly the rows whose severity rank is ≥ `c`, sorted by risk
score descending (tie order unspecified — in particular not the input
order); with "critical" only rows of severity exactly "critical" survive,
and with "low" (on a table whose severities are all valid) every row is
returned. -/
theorem get_alerts_spec (df : List Row) (ms : String) (c : ℕ) (l : List Row)
    (hms : severity_order ms = some c) (hl : get_alerts df ms = some l) :
    List.Perm l (df.filter (sev_passes c)) ∧
    List.Sorted score_desc l ∧
    (ms = "critical" → ∀ r ∈ l, r.severity = some "critical") ∧
    (ms = "low" → (∀ r ∈ df, (severity_order (r.severity.getD "")).isSome = true) →
      List.Perm l df) := by
  unfold get_alerts at hl
  rw [hms] at hl
  injection hl with hl
  subst hl
  refine ⟨(List.reverse_perm _).trans (List.perm_insertionSort _ _),
    sorted_desc_reverse_asc _, ?_, ?_⟩
  · rintro rfl r hr
    have hd : severity_order "critical" = some 3 := by decide
    rw [hms] at hd
    injection hd with hd
    subst hd
    have hr2 : r ∈ df.filter (sev_passes 3) :=
      (List.mem_insertionSort score_asc).mp (List.mem_reverse.mp hr)
    have hp := (List.mem_filter.mp hr2).2
    unfold sev_passes at hp
    rcases hx : severity_order (r.severity.getD "") with _ | k
    · simp only [hx] at hp
      cases hp
    · simp only [hx] at hp
      have hk : 3 ≤ k := of_decide_eq_true hp
      unfold severity_order at hx
      split_ifs at hx with h1 h2 h3 h4
      · injection hx with hx; omega
      · injection hx with hx; omega
      · injection hx with hx; omega
      · rcases hsev : r.severity with _ | sv
        · rw [hsev] at h4
          simp at h4
        · rw [hsev] at h4
          simp only [Option.getD_some] at h4
          rw [h4]
  · rintro rfl hall
    have hd : severity_order "low" = some 0 := by decide
    rw [hms] at hd
    injection hd with hd
    subst hd
    have hfilter : df.filter (sev_passes 0) = df := by
      refine List.filter_eq_self.mpr fun r hr => ?_
      unfold sev_passes
      rcases hx : severity_order (r.severity.getD "") with _ | k
      · have hs := hall r hr
        rw [hx] at hs
        cases hs
      · simp
    refine ((List.reverse_perm _).trans (List.perm_insertionSort _ _)).trans ?_
    rw [hfilter]

/-- Scored row with severity "low". -/
def alert_rowL : Row :=
  { row0 with txId := 10, risk_score := some 1, severity := some "low" }

/-- Scored row with severity "medium". -/
def alert_rowM : Row :=
  { row0 with txId := 11, risk_score := some 3, severity := some "medium" }

/-- Scored row with severity "critical". -/
def alert_rowC : Row :=
  { row0 with txId := 12, risk_score := some 9, severity := some "critical" }

/-- C7 witness: filtering a concrete three-row scored table at "medium"
keeps the medium and critical rows, sorted descending by score. -/
theorem get_alerts_spec_witness :
    severity_order "medium" = some 1 ∧
    get_alerts [alert_rowL, alert_rowM, alert_rowC] "medium" =
      some [alert_rowC, alert_rowM] ∧
    (List.Perm [alert_rowC, alert_rowM]
      ([alert_rowL, alert_rowM, alert_rowC].filter (sev_passes 1)) ∧
    List.Sorted score_desc [alert_rowC, alert_rowM] ∧
    ("medium" = "critical" →
      ∀ r ∈ [alert_rowC, alert_rowM], r.severity = some "critical") ∧
    ("medium" = "low" →
      (∀ r ∈ [alert_rowL, alert_rowM, alert_rowC],
        (severity_order (r.severity.getD "")).isSome = true) →
      List.Perm [alert_rowC, alert_rowM] [alert_rowL, alert_rowM, alert_rowC])) :=
  ⟨by decide, by decide,
    get_alerts_spec [alert_rowL, alert_rowM, alert_rowC] "medium" 1
      [alert_rowC, alert_rowM] (by decide) (by decide)⟩

/-- First of two rows tied at risk score 4. -/
def tie_rowA : Row :=
  { row0 with txId := 21, risk_score := some 4, severity := some "medium" }

/-- Second of two rows tied at risk score 4. -/
def tie_rowB : Row :=
  { row0 with txId := 22, risk_score := some 4, severity := some "medium" }

/-- C7 counterexample: ties are not broken stably.  On a two-row table whose
rows are tied at the same risk score, the alert filter returns the rows in
reversed input order (the descending sort reverses the ascending argsort,
flipping tie groups), so the output is not the input-ordered
`[tie_rowA, tie_rowB]` the claim requires. -/
theorem get_alerts_ties_not_stable :
    get_alerts [tie_rowA, tie_rowB] "low" = some [tie_rowB, tie_rowA] ∧
    some [tie_rowB, tie_rowA] ≠ some [tie_rowA, tie_rowB] :=
  ⟨by decide, by decide⟩

/-! ### Claim C10: frame effects of the table-level operations -/

/-- Reading below the allocation point is unaffected by an allocation. -/
theorem df_read_alloc_lt (h : Heap) (d : List Row) (i : ℕ) (hi : i < h.length) :
    df_read (df_alloc h d).1 i = df_read h i := by
  unfold df_read df_alloc
  exact List.getD_append _ _ _ _ hi

/-- Reading a cell other than the one assigned is unaffected by a column
assignment. -/
theorem df_read_setcols_ne (h : Heap) (n : ℕ) (d : List Row) (i : ℕ)
    (hne : i ≠ n) : df_read (df_setcols h n d) i = df_read h i := by
  unfold df_read df_setcols
  simp [List.getD, List.getElem?_set_ne (Ne.symm hne)]

/-- C10: every table-level operation (degree features, exposure features,
risk scoring, alert filtering) writes only to a freshly allocated output
frame: every pre-existing heap cell — in particular the input frame — is
unchanged, and the returned reference is the fresh one. -/
theorem frame_ops_preserve_input (h : Heap) (dfRef i : ℕ) (hi : i < h.length) :
    (∀ edges, df_read (add_fan_in_out_heap h dfRef edges).1 i = df_read h i ∧
      (add_fan_in_out_heap h dfRef edges).2 = h.length) ∧
    (∀ edges c2,
      df_read (add_illicit_exposure_heap h dfRef edges c2).1 i = df_read h i ∧
      (add_illicit_exposure_heap h dfRef edges c2).2 = h.length) ∧
    (∀ cfg, df_read (add_risk_scores_heap h dfRef cfg).1 i = df_read h i ∧
      (add_risk_scores_heap h dfRef cfg).2 = h.length) ∧
    (∀ ms h2 oref, get_alerts_heap h dfRef ms = some (h2, oref) →
      df_read h2 i = df_read h i ∧ oref = h.length) := by
  have hne : i ≠ h.length := Nat.ne_of_lt hi
  refine ⟨fun edges => ⟨?_, rfl⟩, fun edges c2 => ⟨?_, rfl⟩,
    fun cfg => ⟨?_, rfl⟩, ?_⟩
  · exact (df_read_setcols_ne _ _ _ _ hne).trans (df_read_alloc_lt _ _ _ hi)
  · exact (df_read_setcols_ne _ _ _ _ hne).trans (df_read_alloc_lt _ _ _ hi)
  · exact (df_read_setcols_ne _ _ _ _ hne).trans (df_read_alloc_lt _ _ _ hi)
  · intro ms h2 oref hm
    unfold get_alerts_heap at hm
    rcases hg : get_alerts (df_read h dfRef) ms with _ | L
    · rw [hg] at hm; cases hm
    · rw [hg] at hm
      injection hm with hm
      have h21 : h2 = (df_alloc h L).1 := (congrArg Prod.fst hm).symm
      have h22 : oref = h.length := (congrArg Prod.snd hm).symm
      subst h21
      exact ⟨df_read_alloc_lt _ _ _ hi, h22⟩

/-- Singleton heap holding one one-row frame. -/
def heap0 : Heap := [[row0]]

/-- C10 witness: on a concrete one-frame heap, each operation leaves the
input frame readable unchanged and returns the fresh reference 1. -/
theorem frame_ops_preserve_input_witness :
    0 < heap0.length ∧
    df_read (add_fan_in_out_heap heap0 0 tri_edges).1 0 = df_read heap0 0 ∧
    (add_fan_in_out_heap heap0 0 tri_edges).2 = heap0.length ∧
    df_read (add_illicit_exposure_heap heap0 0 tri_edges true).1 0 =
      df_read heap0 0 ∧
    df_read (add_risk_scores_heap heap0 0 cfg_ones).1 0 = df_read heap0 0 ∧
    get_alerts_heap heap0 0 "low" = some ([[row0], []], 1) ∧
    df_read [[row0], []] 0 = df_read heap0 0 := by
  have H := frame_ops_preserve_input heap0 0 0 (by decide)
  exact ⟨by decide, (H.1 tri_edges).1, (H.1 tri_edges).2,
    (H.2.1 tri_edges true).1, (H.2.2.1 cfg_ones).1, by decide,
    (H.2.2.2 "low" [[row0], []] 1 (by decide)).1⟩

end AML
